import Mathlib

/-!
Verification development for the Tautulli→TRMNL relay
(`harrisonlingren/tautulli-trmnl`, Go).

The file shallowly embeds the data-shaping pipeline of `main.go` (the primary,
query-parameter variant) together with the parts of the image-proxy variant
(`src/unnamed/part_003`) that differ: base-URL scheme normalization and the
`/image` proxy handler.  Strings are Lean `String`s, Go `int` is `Int` (with the
64-bit range check of `strconv.Atoi` made explicit), JSON decoding is taken as
given (the pipeline is modelled from the decoded `TautulliResponse` value on),
and the `html/template` rendering of the fixed template is embedded as the
function it denotes, with the contextual auto-escaping of user-controlled text
made explicit.
-/

namespace TautulliTrmnl

/-- `Session` mirrors the Go struct `Session` of `main.go` (lines 25–35): the
fields decoded from the Tautulli JSON plus the two computed fields `PosterURL`
and `Progress`, whose Go zero values (empty string, 0) are the values they hold
right after JSON decoding. -/
structure Session where
  User : String
  Player : String
  GrandparentTitle : String
  Title : String
  MediaType : String
  Thumb : String
  ProgressPercent : String
  PosterURL : String := ""
  Progress : Int := 0
deriving DecidableEq

/-- The payload of a decoded `TautulliResponse` (`main.go` lines 15–22):
`Response.Data.StreamCount` (a string in the upstream JSON) and
`Response.Data.Sessions`. -/
structure TautulliData where
  StreamCount : String
  Sessions : List Session
deriving DecidableEq

/-- `PageData` mirrors the Go struct passed to the template (`main.go`
lines 38–42). -/
structure PageData where
  StreamCount : Int
  Sessions : List Session
  Timestamp : String
deriving DecidableEq

/-- Decimal value of a digit list, as accumulated by `strconv.Atoi`. -/
def digitsVal (l : List Char) : Nat :=
  l.foldl (fun a c => a * 10 + (c.toNat - 48)) 0

/-- A non-empty all-digit character list parses to its decimal value; anything
else is a syntax error for `strconv.ParseInt` base 10. -/
def parseDigits : List Char → Option Nat
  | [] => none
  | l => if l.all Char.isDigit then some (digitsVal l) else none

/-- Largest Go `int` (64-bit platforms): `2^63 - 1`. -/
def int64Max : Nat := 2 ^ 63 - 1

/-- Absolute value of the smallest Go `int`: `2^63`. -/
def int64AbsMin : Nat := 2 ^ 63

/-- `atoi? s` models Go `strconv.Atoi s` : it returns `some n` exactly when Go
returns `(n, nil)`, and `none` when Go returns a non-nil error.  `Atoi` accepts
an optional leading sign followed by at least one decimal digit and nothing
else, and reports `ErrRange` (a non-nil error) outside the 64-bit `int` range;
both the syntax- and the range-error case land in `none`, which is all the
callers inspect (`err == nil`). -/
def atoi? (s : String) : Option Int :=
  match s.data with
  | '+' :: rest =>
    (parseDigits rest).bind fun n =>
      if n ≤ int64Max then some (n : Int) else none
  | '-' :: rest =>
    (parseDigits rest).bind fun n =>
      if n ≤ int64AbsMin then some (-(n : Int)) else none
  | l =>
    (parseDigits l).bind fun n =>
      if n ≤ int64Max then some (n : Int) else none

/-- UTF-8 encoding of one character, as the list of its byte values; Go strings
are UTF-8 byte sequences and `url.QueryEscape` works byte by byte. -/
def utf8Bytes (c : Char) : List Nat :=
  let n := c.toNat
  if n < 128 then [n]
  else if n < 2048 then [192 + n / 64, 128 + n % 64]
  else if n < 65536 then [224 + n / 4096, 128 + n / 64 % 64, 128 + n % 64]
  else [240 + n / 262144, 128 + n / 4096 % 64, 128 + n / 64 % 64, 128 + n % 64]

/-- Upper-case hexadecimal digit, as emitted by `url.QueryEscape`. -/
def upperHexDigit (n : Nat) : Char :=
  if n < 10 then Char.ofNat (48 + n) else Char.ofNat (55 + n)

/-- The bytes `shouldEscape` leaves alone in `encodeQueryComponent` mode:
ASCII letters, digits, and `-` `_` `.` `~`. -/
def isUnreservedQueryByte (b : Nat) : Bool :=
  (65 ≤ b && b ≤ 90) || (97 ≤ b && b ≤ 122) || (48 ≤ b && b ≤ 57) ||
    b == 45 || b == 95 || b == 46 || b == 126

/-- One byte of `url.QueryEscape` output: unreserved bytes pass through, a
space becomes `+`, every other byte becomes `%XX` with upper-case hex. -/
def queryEscapeByte (b : Nat) : List Char :=
  if isUnreservedQueryByte b then [Char.ofNat b]
  else if b == 32 then ['+']
  else ['%', upperHexDigit (b / 16), upperHexDigit (b % 16)]

/-- Go `url.QueryEscape` over the UTF-8 bytes of `s`. -/
def queryEscape (s : String) : String :=
  String.mk ((s.data.flatMap utf8Bytes).flatMap queryEscapeByte)

/-- One character of `html/template` text/attribute escaping
(`htmlReplacementTable`): `"` to `&#34;`, the apostrophe (code 39) to `&#39;`,
`&` to `&amp;`, `<` to `&lt;`, `>` to `&gt;`, NUL to U+FFFD; everything else
passes through. -/
def escChar (c : Char) : List Char :=
  if c.toNat = 34 then "&#34;".data
  else if c.toNat = 39 then "&#39;".data
  else if c = '&' then "&amp;".data
  else if c = '<' then "&lt;".data
  else if c = '>' then "&gt;".data
  else if c.toNat = 0 then "�".data
  else [c]

/-- `html/template` escaping of an interpolated string. -/
def htmlEscape (s : String) : String :=
  String.mk (s.data.flatMap escChar)

/-- The fixed placeholder poster (`main.go` line 148). -/
def placeholderPosterURL : String := "https://placehold.co/120x180/eee/ccc?text=No+Art"

/-- Step 5 of `httpHandler` (`main.go` lines 142–155) for one session: set
`PosterURL` (direct upstream image-proxy URL with the thumb query-escaped, or
the placeholder when `Thumb` is empty) and set `Progress` when
`strconv.Atoi(session.ProgressPercent)` succeeds, leaving the zero value 0
otherwise. -/
def normalizeSession (tautulliURL apiKey : String) (s : Session) : Session :=
  let s1 :=
    if s.Thumb ≠ "" then
      { s with PosterURL :=
          tautulliURL ++ "/api/v2?apikey=" ++ apiKey ++ "&cmd=pms_image_proxy&img=" ++
            queryEscape s.Thumb }
    else
      { s with PosterURL := placeholderPosterURL }
  match atoi? s.ProgressPercent with
  | some p => { s1 with Progress := p }
  | none => s1

/-- The session-list bound of `httpHandler` (`main.go` lines 135–139):
`if len(sessions) > 4 { sessions = sessions[:4] }`. -/
def truncateSessions (l : List Session) : List Session :=
  if l.length > 4 then l.take 4 else l

/-- Steps 4–6 of `httpHandler` (`main.go` lines 128–162): parse the stream
count with fallback 0, truncate the session list to at most 4, normalize each
kept session, and build the `PageData` handed to the template.  The wall-clock
timestamp (`time.Now().Format("3:04 PM")`) enters as the parameter `now`. -/
def processActivity (tautulliURL apiKey : String) (d : TautulliData) (now : String) : PageData :=
  let streamCount : Int := (atoi? d.StreamCount).getD 0
  let sessions := truncateSessions d.Sessions
  { StreamCount := streamCount
    Sessions := sessions.map (normalizeSession tautulliURL apiKey)
    Timestamp := now }

/-- The title the template displays for a session (`main.go` lines 59–63): the
series title for an episode, the plain title otherwise. -/
def displayTitle (s : Session) : String :=
  if s.MediaType = "episode" then s.GrandparentTitle else s.Title

/-- The optional subtitle line (`main.go` lines 65–67): the episode title for
an episode, absent otherwise. -/
def subtitle (s : Session) : Option String :=
  if s.MediaType = "episode" then some s.Title else none

/-- Go `strings.HasPrefix`, on the character lists of the two strings. -/
def strStartsWith (s p : String) : Bool :=
  p.data.isPrefixOf s.data

/-- The base-URL scheme normalization of the image-proxy variant
(`src/unnamed/part_003`, lines 105–107 and 145–147): prepend `https://` when
the URL starts with neither `http://` nor `https://`. -/
def normalizeBaseURL (u : String) : String :=
  if !(strStartsWith u "http://") && !(strStartsWith u "https://") then
    "https://" ++ u
  else u

/-- The activity-fetch URL built by `httpHandler` in `main.go` (line 108),
which applies no normalization to the base URL. -/
def apiURLBasic (tautulliURL apiKey : String) : String :=
  tautulliURL ++ "/api/v2?apikey=" ++ apiKey ++ "&cmd=get_activity"

/-- The activity-fetch URL built by `httpHandler` in `src/unnamed/part_003`
(lines 145–150): the same format string, applied after `normalizeBaseURL`. -/
def apiURLNormalized (tautulliURL apiKey : String) : String :=
  apiURLBasic (normalizeBaseURL tautulliURL) apiKey

/-!
Rendering.  `renderPage` is the function `htmlTemplate` (`main.go` lines
45–92) denotes once parsed and executed by `html/template`: the literal text
chunks of the template interleaved with the interpolated fields, each
interpolation escaped as the package escapes it in its context.  The
user-controlled text interpolations (`.GrandparentTitle`, `.Title`, `.User`,
`.Timestamp`) sit in HTML text context and go through `htmlEscape`.
`.PosterURL` sits in an `src` attribute: `html/template` first applies its URL
sanitizer — which passes the plain `http(s)` URLs this pipeline produces
through unchanged — and then the same character escaping, so the attribute
value is modelled as `htmlEscape`.  `.Progress` sits in a CSS `width` value
and is printed as a decimal integer, which the CSS value filter passes
through. -/

/-- Template text from the start of the `range` body to `{{.PosterURL}}`
(`main.go` lines 52–55). -/
def sessChunk1 : String :=
  "\n                            <div style=\"flex: 1 1 48%; min-width: 350px; display: flex; background-color: #f9f9f9; border-radius: 8px; overflow: hidden; border: 1px solid #eee;\">\n                                <div style=\"flex-shrink: 0;\">\n                                    <img src=\""

/-- Template text from `{{.PosterURL}}` to the display-title interpolation
(`main.go` lines 55–60); the surrounding whitespace of the two title branches
is identical, so the branch text is shared. -/
def sessChunk2 : String :=
  "\" style=\"width: 120px; height: 180px; object-fit: cover;\" alt=\"Poster\" />\n                                </div>\n                                <div style=\"padding: 0.75rem 1rem; display: flex; flex-direction: column; justify-content: center; flex-grow: 1;\">\n                                    <p style=\"margin: 0; font-weight: bold; font-size: 1.2rem; white-space: nowrap; overflow: hidden; text-overflow: ellipsis;\">\n                                        \n                                            "

/-- Template text from the display title to the subtitle conditional
(`main.go` lines 60–65). -/
def sessChunk3 : String :=
  "\n                                        \n                                    </p>\n                                    "

/-- Opening text of the subtitle line (`main.go` line 66). -/
def subtitleChunkA : String :=
  "\n                                        <p style=\"margin: 0.25rem 0; font-size: 1rem; white-space: nowrap; overflow: hidden; text-overflow: ellipsis;\">"

/-- Closing text of the subtitle line (`main.go` lines 66–67). -/
def subtitleChunkB : String :=
  "</p>\n                                    "

/-- The subtitle conditional (`main.go` lines 65–67): a second title line for
episodes, nothing otherwise. -/
def subtitleBlock (s : Session) : String :=
  match subtitle s with
  | some t => subtitleChunkA ++ htmlEscape t ++ subtitleChunkB
  | none => ""

/-- Template text from the subtitle conditional to `{{.User}}` (`main.go`
lines 67–69). -/
def sessChunk4 : String :=
  "\n                                    <p style=\"margin: 0.5rem 0 0; font-size: 0.9rem; color: #555;\">\n                                        "

/-- Template text from `{{.User}}` to `{{.Progress}}` (`main.go`
lines 69–73). -/
def sessChunk5 : String :=
  "\n                                    </p>\n                                    <div style=\"margin-top: auto; padding-top: 1rem;\">\n                                        <div style=\"background-color: #e0e0e0; border-radius: 4px; overflow: hidden;\">\n                                            <div style=\"height: 8px; width: "

/-- Template text from `{{.Progress}}` to the end of the `range` body
(`main.go` lines 73–78). -/
def sessChunk6 : String :=
  "%; background-color: #76c7c0; border-radius: 4px;\"></div>\n                                        </div>\n                                    </div>\n                                </div>\n                            </div>\n                        "

/-- One iteration of `{{range .Sessions}}` (`main.go` lines 52–78). -/
def renderSession (s : Session) : String :=
  sessChunk1 ++ htmlEscape s.PosterURL ++ sessChunk2 ++ htmlEscape (displayTitle s) ++
    sessChunk3 ++ subtitleBlock s ++ sessChunk4 ++ htmlEscape s.User ++ sessChunk5 ++
    toString s.Progress ++ sessChunk6

/-- Concatenation of the outputs of the iterations of a template `range`. -/
def strJoin : List String → String
  | [] => ""
  | s :: rest => s ++ strJoin rest

/-- Template text before `{{if gt .StreamCount 0}}` (`main.go` lines 45–50). -/
def pageHeadChunk : String :=
  "\n<markup>\n    <div class=\"view view--full\" style=\"font-family: -apple-system, BlinkMacSystemFont, \x27Segoe UI\x27, Roboto, Helvetica, Arial, sans-serif;\">\n        <div class=\"layout\">\n            <div class=\"column\">\n                "

/-- Template text from `{{if gt .StreamCount 0}}` to `{{range .Sessions}}`
(`main.go` lines 50–52). -/
def sessionsOpenChunk : String :=
  "\n                    <div style=\"display: flex; flex-wrap: wrap; gap: 1rem; justify-content: flex-start; margin-top: 1rem;\">\n                        "

/-- Template text from the end of the `range` to `{{else}}` (`main.go`
lines 78–80). -/
def sessionsCloseChunk : String :=
  "\n                    </div>\n                "

/-- The `{{else}}` branch of the page conditional (`main.go` lines 80–86). -/
def emptyStateChunk : String :=
  "\n                    <div class=\"markdown\">\n                        <div class=\"content-element content content--center mt-4\">\n                            <p>Nothing is currently playing.</p>\n                        </div>\n                    </div>\n                "

/-- Template text from the page conditional's `{{end}}` to `{{.Timestamp}}`
(`main.go` lines 86–87). -/
def pageFootChunkA : String :=
  "\n                <span class=\"label label--underline mt-4\" style=\"text-align: right; display: block;\">Updated: "

/-- Template text after `{{.Timestamp}}` (`main.go` lines 87–92). -/
def pageFootChunkB : String :=
  "</span>\n            </div>\n        </div>\n    </div>\n</markup>\n"

/-- The markup output of `tmpl.Execute` on a `PageData` (`main.go`
lines 45–92 and 164–176). -/
def renderPage (pd : PageData) : String :=
  pageHeadChunk ++
    (if pd.StreamCount > 0 then
      sessionsOpenChunk ++ strJoin (pd.Sessions.map renderSession) ++ sessionsCloseChunk
    else emptyStateChunk) ++
    pageFootChunkA ++ htmlEscape pd.Timestamp ++ pageFootChunkB

/-- Outcome of the single upstream activity GET plus JSON decode: connection
or timeout failure, undecodable body, or a decoded payload. -/
inductive FetchResult where
  | connError : FetchResult
  | badJSON : FetchResult
  | ok : TautulliData → FetchResult

/-- An HTTP response as the handlers produce it: status, headers, body. -/
structure HttpResponse where
  status : Nat
  headers : List (String × String)
  body : String
deriving DecidableEq

/-- The headers `http.Error` sets. -/
def plainTextHeaders : List (String × String) :=
  [("Content-Type", "text/plain; charset=utf-8"), ("X-Content-Type-Options", "nosniff")]

/-- `httpHandler` of `main.go` (lines 95–177), with the upstream GET + JSON
decode abstracted as `fetch` on the request URL and the wall clock as `now`.
`http.Error` bodies carry the trailing newline `Fprintln` appends.  Parsing the
constant `htmlTemplate` cannot fail, so the template-error branches of the Go
code are unreachable and the success path always renders. -/
def httpHandler (tautulliURL apiKey : String) (fetch : String → FetchResult)
    (now : String) : HttpResponse :=
  if tautulliURL = "" ∨ apiKey = "" then
    ⟨400, plainTextHeaders,
      "Missing required query parameters: \x27tautulli_url\x27 and \x27api_key\x27\n"⟩
  else
    match fetch (apiURLBasic tautulliURL apiKey) with
    | .connError => ⟨500, plainTextHeaders, "Failed to connect to Tautulli\n"⟩
    | .badJSON => ⟨500, plainTextHeaders, "Failed to parse Tautulli response\n"⟩
    | .ok d =>
      ⟨200, [("Content-Type", "text/html; charset=utf-8")],
        renderPage (processActivity tautulliURL apiKey d now)⟩

/-- What the image proxy's upstream GET returns when it returns at all: any
status code, its headers, and its body bytes. -/
structure UpstreamResponse where
  status : Nat
  headers : List (String × String)
  body : String
deriving DecidableEq

/-- The upstream image URL the proxy reconstructs (`src/unnamed/part_003`,
line 110). -/
def imageProxyURL (tautulliURL apiKey imgPath : String) : String :=
  normalizeBaseURL tautulliURL ++ "/api/v2?apikey=" ++ apiKey ++
    "&cmd=pms_image_proxy&img=" ++ imgPath

/-- `imageProxyHandler` of `src/unnamed/part_003` (lines 95–131).  On a
completed upstream GET the Go code copies every upstream header with
`w.Header().Add` and then streams the body with `io.Copy`; it never calls
`WriteHeader`, so the first body write emits the implicit status 200 and the
upstream status code is dropped.  A failed GET maps to `http.Error` 500. -/
def imageProxyHandler (tautulliURL apiKey imgPath : String)
    (fetch : String → Option UpstreamResponse) : HttpResponse :=
  if tautulliURL = "" ∨ apiKey = "" ∨ imgPath = "" then
    ⟨400, plainTextHeaders, "Missing required query parameters for image proxy\n"⟩
  else
    match fetch (imageProxyURL tautulliURL apiKey imgPath) with
    | none => ⟨500, plainTextHeaders, "Failed to fetch image from Tautulli\n"⟩
    | some resp => ⟨200, resp.headers, resp.body⟩

/-- Modelled from the spec: a JSON value, for the JSON output mode of §4.4.
The JSON-mode Go service described in `src/README.md` (the variant that
"acts as a JSON API" for a Liquid template) is not among the source files, so
its serialization is modelled from the spec's words. -/
inductive Json where
  | str : String → Json
  | num : Int → Json
  | arr : List Json → Json
  | obj : List (String × Json) → Json

/-- Modelled from the spec: JSON serialization of one assembled session, one
member per field of the display record. -/
def encodeSession (s : Session) : Json :=
  .obj [("user", .str s.User), ("player", .str s.Player),
    ("grandparent_title", .str s.GrandparentTitle), ("title", .str s.Title),
    ("media_type", .str s.MediaType), ("thumb", .str s.Thumb),
    ("progress_percent", .str s.ProgressPercent), ("poster_url", .str s.PosterURL),
    ("progress", .num s.Progress)]

/-- Modelled from the spec: decoding one serialized session back into its
field values. -/
def decodeSession : Json → Option Session
  | .obj [("user", .str user), ("player", .str player),
      ("grandparent_title", .str grandparentTitle), ("title", .str title),
      ("media_type", .str mediaType), ("thumb", .str thumb),
      ("progress_percent", .str progressPercent), ("poster_url", .str posterURL),
      ("progress", .num progress)] =>
    some ⟨user, player, grandparentTitle, title, mediaType, thumb, progressPercent,
      posterURL, progress⟩
  | _ => none

/-- Modelled from the spec: decoding a serialized session list element by
element. -/
def decodeSessionList : List Json → Option (List Session)
  | [] => some []
  | j :: rest =>
    match decodeSession j, decodeSessionList rest with
    | some s, some ss => some (s :: ss)
    | _, _ => none

/-- Modelled from the spec: JSON serialization of the assembled page
(`serialize DisplayPage directly`). -/
def encodePage (pd : PageData) : Json :=
  .obj [("stream_count", .num pd.StreamCount),
    ("sessions", .arr (pd.Sessions.map encodeSession)),
    ("timestamp", .str pd.Timestamp)]

/-- Modelled from the spec: decoding a serialized page back into its field
values. -/
def decodePage : Json → Option PageData
  | .obj [("stream_count", .num streamCount), ("sessions", .arr sessions),
      ("timestamp", .str timestamp)] =>
    match decodeSessionList sessions with
    | some ss => some ⟨streamCount, ss, timestamp⟩
    | none => none
  | _ => none

/-- Modelled from the spec: the JSON output mode of §4.4 — the response
content type and the serialized page. -/
def jsonModeOutput (pd : PageData) : String × Json :=
  ("application/json", encodePage pd)

/-- The session fields that come straight from the upstream payload, as a
tuple: everything except the computed `PosterURL` and `Progress`. -/
def rawFields (s : Session) : String × String × String × String × String × String × String :=
  (s.User, s.Player, s.GrandparentTitle, s.Title, s.MediaType, s.Thumb, s.ProgressPercent)

/-! Helper lemmas. -/

theorem normalizeSession_rawFields (u k : String) (s : Session) :
    rawFields (normalizeSession u k s) = rawFields s := by
  unfold normalizeSession rawFields
  split <;> split <;> rfl

theorem normalizeSession_progress_none (u k : String) (s : Session)
    (h : atoi? s.ProgressPercent = none) :
    (normalizeSession u k s).Progress = s.Progress := by
  unfold normalizeSession
  rw [h]
  split <;> rfl

theorem normalizeSession_progress_some (u k : String) (s : Session) (v : Int)
    (h : atoi? s.ProgressPercent = some v) :
    (normalizeSession u k s).Progress = v := by
  unfold normalizeSession
  rw [h]

theorem isPrefixOf_append_self : ∀ (l t : List Char), l.isPrefixOf (l ++ t) = true
  | [], _ => by simp [List.isPrefixOf]
  | a :: as, t => by simp [List.isPrefixOf, isPrefixOf_append_self as t]

theorem isPrefixOf_append_right : ∀ (l m t : List Char),
    l.isPrefixOf m = true → l.isPrefixOf (m ++ t) = true
  | [], _, _, _ => by simp [List.isPrefixOf]
  | _ :: _, [], _, h => by simp [List.isPrefixOf] at h
  | a :: as, b :: bs, t, h => by
    simp only [List.isPrefixOf, Bool.and_eq_true] at h ⊢
    exact ⟨h.1, isPrefixOf_append_right as bs t h.2⟩

theorem strStartsWith_append (x y p : String) (h : strStartsWith x p = true) :
    strStartsWith (x ++ y) p = true := by
  simp only [strStartsWith, String.data_append] at h ⊢
  exact isPrefixOf_append_right _ _ _ h

theorem strStartsWith_self_append (p t : String) : strStartsWith (p ++ t) p = true := by
  simp only [strStartsWith, String.data_append]
  exact isPrefixOf_append_self _ _

theorem normalizeBaseURL_scheme (u : String) :
    strStartsWith (normalizeBaseURL u) "http://" = true ∨
      strStartsWith (normalizeBaseURL u) "https://" = true := by
  by_cases hA : strStartsWith u "http://" = true
  · have he : normalizeBaseURL u = u := by unfold normalizeBaseURL; simp [hA]
    rw [he]
    exact Or.inl hA
  · by_cases hB : strStartsWith u "https://" = true
    · have he : normalizeBaseURL u = u := by unfold normalizeBaseURL; simp [hB]
      rw [he]
      exact Or.inr hB
    · have he : normalizeBaseURL u = "https://" ++ u := by
        unfold normalizeBaseURL
        rw [Bool.not_eq_true] at hA hB
        simp [hA, hB]
      rw [he]
      exact Or.inr (strStartsWith_self_append _ _)

theorem htmlEscape_append (a b : String) :
    htmlEscape (a ++ b) = htmlEscape a ++ htmlEscape b :=
  String.ext (by simp [htmlEscape, List.flatMap_append])

theorem escChar_no_lt (c : Char) : ¬ ('<' ∈ escChar c) := by
  unfold escChar
  split
  · decide
  · split
    · decide
    · split
      · decide
      · split
        · decide
        · split
          · decide
          · split
            · decide
            · rename_i h1 h2 h3 h4 h5 h6
              intro hmem
              rw [List.mem_singleton] at hmem
              exact h4 hmem.symm

theorem htmlEscape_no_lt (s : String) : ∀ c ∈ (htmlEscape s).data, c ≠ '<' := by
  intro c hc
  simp only [htmlEscape, List.mem_flatMap] at hc
  obtain ⟨a, _, ha⟩ := hc
  intro h
  subst h
  exact escChar_no_lt a ha

theorem strJoin_append (l1 l2 : List String) :
    strJoin (l1 ++ l2) = strJoin l1 ++ strJoin l2 := by
  induction l1 with
  | nil => simp [strJoin]
  | cons s rest ih => simp [strJoin, ih, String.append_assoc]

/-- `containsStr s sub` holds when `sub` occurs contiguously in `s`. -/
def containsStr (s sub : String) : Prop := ∃ A B, s = A ++ sub ++ B

theorem containsStr_self (x : String) : containsStr x x :=
  ⟨"", "", by simp⟩

theorem containsStr_appL (a : String) {s x : String} (h : containsStr s x) :
    containsStr (a ++ s) x := by
  obtain ⟨A, B, hAB⟩ := h
  exact ⟨a ++ A, B, by simp [hAB, String.append_assoc]⟩

theorem containsStr_appR (b : String) {s x : String} (h : containsStr s x) :
    containsStr (s ++ b) x := by
  obtain ⟨A, B, hAB⟩ := h
  exact ⟨A, B ++ b, by simp [hAB, String.append_assoc]⟩

theorem containsStr_trans {s x y : String} (h1 : containsStr s x) (h2 : containsStr x y) :
    containsStr s y := by
  obtain ⟨A, B, hAB⟩ := h1
  obtain ⟨C, D, hCD⟩ := h2
  exact ⟨A ++ C, D ++ B, by simp [hAB, hCD, String.append_assoc]⟩

theorem renderSession_contains_user (s : Session) :
    containsStr (renderSession s) (htmlEscape s.User) := by
  unfold renderSession
  refine ⟨sessChunk1 ++ htmlEscape s.PosterURL ++ sessChunk2 ++ htmlEscape (displayTitle s) ++
      sessChunk3 ++ subtitleBlock s ++ sessChunk4,
    sessChunk5 ++ toString s.Progress ++ sessChunk6, ?_⟩
  simp [String.append_assoc]

theorem renderSession_contains_title (s : Session) :
    containsStr (renderSession s) (htmlEscape (displayTitle s)) := by
  unfold renderSession
  refine ⟨sessChunk1 ++ htmlEscape s.PosterURL ++ sessChunk2,
    sessChunk3 ++ subtitleBlock s ++ sessChunk4 ++ htmlEscape s.User ++ sessChunk5 ++
      toString s.Progress ++ sessChunk6, ?_⟩
  simp [String.append_assoc]

theorem renderPage_contains_session {pd : PageData} {s : Session}
    (hmem : s ∈ pd.Sessions) (hpos : pd.StreamCount > 0) :
    containsStr (renderPage pd) (renderSession s) := by
  obtain ⟨l1, l2, hsplit⟩ := List.append_of_mem hmem
  unfold renderPage
  rw [if_pos hpos, hsplit, List.map_append, List.map_cons, strJoin_append]
  apply containsStr_appR
  apply containsStr_appR
  apply containsStr_appR
  apply containsStr_appL
  apply containsStr_appR
  apply containsStr_appL
  apply containsStr_appL
  show containsStr (strJoin (renderSession s :: List.map renderSession l2)) (renderSession s)
  show containsStr (renderSession s ++ strJoin (List.map renderSession l2)) (renderSession s)
  exact containsStr_appR _ (containsStr_self _)

theorem normalizeSession_posterURL (u k : String) (s : Session) :
    (normalizeSession u k s).PosterURL =
      (if s.Thumb ≠ "" then
        u ++ "/api/v2?apikey=" ++ k ++ "&cmd=pms_image_proxy&img=" ++ queryEscape s.Thumb
      else placeholderPosterURL) := by
  unfold normalizeSession
  split <;> split <;> rfl

/-! The claims. -/

/-- Claim C1: for every decoded activity payload whose session list has more
than 4 entries, the assembled page's session list is exactly the first 4
upstream sessions in their original order (each carrying its upstream fields
unchanged, with only the computed `PosterURL`/`Progress` filled in by the
normalizer), for every value of the reported stream-count field. -/
theorem truncation_first_four (u k cnt now : String) (raw : List Session)
    (h : raw.length > 4) :
    (processActivity u k ⟨cnt, raw⟩ now).Sessions =
      (raw.take 4).map (normalizeSession u k) ∧
    (processActivity u k ⟨cnt, raw⟩ now).Sessions.length = 4 ∧
    ∀ i : Nat, i < 4 →
      ((processActivity u k ⟨cnt, raw⟩ now).Sessions[i]?).map rawFields =
        (raw[i]?).map rawFields := by
  have hs : (processActivity u k ⟨cnt, raw⟩ now).Sessions =
      (raw.take 4).map (normalizeSession u k) := by
    simp [processActivity, truncateSessions, h]
  refine ⟨hs, ?_, ?_⟩
  · rw [hs]
    simp only [List.length_map, List.length_take]
    omega
  · intro i hi
    rw [hs, List.getElem?_map, List.getElem?_take_of_lt hi]
    cases hr : raw[i]? <;> simp [normalizeSession_rawFields]

/-- Five decoded sessions, one more than the display bound. -/
def fiveSessions : List Session :=
  [⟨"u1", "p", "g", "t1", "movie", "", "10", "", 0⟩,
   ⟨"u2", "p", "g", "t2", "movie", "", "20", "", 0⟩,
   ⟨"u3", "p", "g", "t3", "movie", "", "30", "", 0⟩,
   ⟨"u4", "p", "g", "t4", "movie", "", "40", "", 0⟩,
   ⟨"u5", "p", "g", "t5", "movie", "", "50", "", 0⟩]

/-- Witness for C1: a 5-session payload with a reported count of 99 is cut to
exactly 4 sessions. -/
theorem truncation_first_four_witness :
    fiveSessions.length > 4 ∧
    (processActivity "http://t" "k" ⟨"99", fiveSessions⟩ "9:00 AM").Sessions.length = 4 :=
  ⟨by decide, (truncation_first_four "http://t" "k" "99" "9:00 AM" fiveSessions (by decide)).2.1⟩

/-- Claim C2 counterexample: with a reported stream count of "0" and one
session in the payload, the assembled page keeps the session, so
`sessions.length ≤ min(4, streamCount-as-reported)` fails (1 > 0).  The code
truncates only at the hard cap 4 and never limits by the reported count. -/
theorem stream_count_invariant_cex :
    ¬ (((processActivity "http://t" "k"
          ⟨"0", [⟨"alice", "web", "", "Movie", "movie", "", "42", "", 0⟩]⟩
          "9:00 AM").Sessions.length : Int) ≤
        min 4 (processActivity "http://t" "k"
          ⟨"0", [⟨"alice", "web", "", "Movie", "movie", "", "42", "", 0⟩]⟩
          "9:00 AM").StreamCount) := by
  decide

/-- Claim C2 amended: the assembled page always satisfies
`sessions.length ≤ 4`; the truncation is a hard cap at 4, independent of the
reported stream count. -/
theorem session_list_capped_at_four (u k now : String) (d : TautulliData) :
    (processActivity u k d now).Sessions.length ≤ 4 := by
  simp only [processActivity, truncateSessions, List.length_map]
  split
  · simp only [List.length_take]
    omega
  · omega

/-- Claim C3: when the raw stream-count field fails to parse (it is empty or
non-numeric), the assembled page's `StreamCount` is 0; when a decoded
session's `progressPercent` fails to parse, its `Progress` stays at the
decoded zero value; and in both cases the handler still answers 200, not an
error response. -/
theorem graceful_zero_fallbacks (u k now : String) (fetch : String → FetchResult)
    (d : TautulliData) (hu : u ≠ "") (hk : k ≠ "")
    (hfetch : fetch (apiURLBasic u k) = .ok d)
    (hcnt : atoi? d.StreamCount = none) :
    (httpHandler u k fetch now).status = 200 ∧
    (processActivity u k d now).StreamCount = 0 ∧
    ∀ s : Session, s.Progress = 0 → atoi? s.ProgressPercent = none →
      (normalizeSession u k s).Progress = 0 := by
  refine ⟨?_, ?_, ?_⟩
  · unfold httpHandler
    rw [if_neg (not_or.mpr ⟨hu, hk⟩), hfetch]
  · simp [processActivity, hcnt]
  · intro s h0 hnone
    rw [normalizeSession_progress_none u k s hnone, h0]

/-- A session as JSON decoding leaves it when `progress_percent` is absent:
the string fields hold the decoded values, the computed fields their Go zero
values. -/
def decodedEmptySession : Session := ⟨"alice", "web", "", "Movie", "movie", "", "", "", 0⟩

/-- A decoded payload whose `stream_count` field is the empty string. -/
def emptyCountData : TautulliData := ⟨"", [decodedEmptySession]⟩

/-- Witness for C3: empty `stream_count` and empty `progress_percent` both
fall back to 0 and the handler still answers 200. -/
theorem graceful_zero_fallbacks_witness :
    (httpHandler "http://t" "key" (fun _ => FetchResult.ok emptyCountData) "9:00 AM").status = 200 ∧
    (processActivity "http://t" "key" emptyCountData "9:00 AM").StreamCount = 0 ∧
    (normalizeSession "http://t" "key" decodedEmptySession).Progress = 0 :=
  have h := graceful_zero_fallbacks "http://t" "key" "9:00 AM"
    (fun _ => FetchResult.ok emptyCountData) emptyCountData
    (by decide) (by decide) rfl (by decide)
  ⟨h.1, h.2.1, h.2.2 decodedEmptySession rfl (by decide)⟩

/-- Claim C4: for every assembled page that renders its session list, the
markup output contains each session's user name and display title only in
escaped form: the escaped field occurs in the output, a `user` containing
`<script>` shows up as `&lt;script&gt;`, and the escaping of these fields can
never emit a raw `<`. -/
theorem markup_escapes_user_fields (pd : PageData) (s : Session)
    (hmem : s ∈ pd.Sessions) (hpos : pd.StreamCount > 0) :
    containsStr (renderPage pd) (htmlEscape s.User) ∧
    containsStr (renderPage pd) (htmlEscape (displayTitle s)) ∧
    (∀ p q, s.User = p ++ "<script>" ++ q → containsStr (renderPage pd) "&lt;script&gt;") ∧
    (∀ c ∈ (htmlEscape s.User).data, c ≠ '<') ∧
    (∀ c ∈ (htmlEscape (displayTitle s)).data, c ≠ '<') := by
  have hpage := renderPage_contains_session hmem hpos
  have huser := containsStr_trans hpage (renderSession_contains_user s)
  have htitle := containsStr_trans hpage (renderSession_contains_title s)
  refine ⟨huser, htitle, ?_, htmlEscape_no_lt _, htmlEscape_no_lt _⟩
  intro p q hpq
  have hscript : htmlEscape "<script>" = "&lt;script&gt;" := by decide
  have hesc : htmlEscape s.User = htmlEscape p ++ "&lt;script&gt;" ++ htmlEscape q := by
    rw [hpq, htmlEscape_append, htmlEscape_append, hscript]
  exact containsStr_trans huser ⟨htmlEscape p, htmlEscape q, hesc⟩

/-- A decoded session whose user name carries a markup injection attempt. -/
def scriptUserSession : Session := ⟨"x<script>y", "web", "", "Movie", "movie", "", "50", "", 0⟩

/-- Witness for C4: rendering a page with the `<script>`-carrying user
produces output containing the escaped form. -/
theorem markup_escapes_user_fields_witness :
    containsStr (renderPage ⟨1, [scriptUserSession], "9:00 AM"⟩) "&lt;script&gt;" :=
  (markup_escapes_user_fields ⟨1, [scriptUserSession], "9:00 AM"⟩ scriptUserSession
    (List.mem_singleton_self _) (by decide)).2.2.1 "x" "y" (by decide)

/-- Claim C5: an episode session displays the series title with the episode
title as subtitle; every other media type displays the plain title with no
subtitle. -/
theorem title_resolution (s : Session) :
    (s.MediaType = "episode" →
      displayTitle s = s.GrandparentTitle ∧ subtitle s = some s.Title) ∧
    (s.MediaType ≠ "episode" →
      displayTitle s = s.Title ∧ subtitle s = none) := by
  constructor <;> intro h <;> simp [displayTitle, subtitle, h]

/-- Witness for C5: the spec's concrete episode (`Foo`/`Bar`) and movie
(`Baz`) examples. -/
theorem title_resolution_witness :
    (displayTitle ⟨"u", "p", "Foo", "Bar", "episode", "", "", "", 0⟩ = "Foo" ∧
      subtitle ⟨"u", "p", "Foo", "Bar", "episode", "", "", "", 0⟩ = some "Bar") ∧
    (displayTitle ⟨"u", "p", "", "Baz", "movie", "", "", "", 0⟩ = "Baz" ∧
      subtitle ⟨"u", "p", "", "Baz", "movie", "", "", "", 0⟩ = none) :=
  ⟨(title_resolution _).1 rfl, (title_resolution _).2 (by decide)⟩

/-- Claim C6: an empty thumb reference yields the fixed placeholder poster
URL; a non-empty one yields the upstream image-proxy URL ending in the
query-escaped reference, so the escaped reference occurs in the URL. -/
theorem poster_url_resolution (u k : String) (s : Session) :
    (s.Thumb = "" → (normalizeSession u k s).PosterURL = placeholderPosterURL) ∧
    (s.Thumb ≠ "" →
      (normalizeSession u k s).PosterURL =
        u ++ "/api/v2?apikey=" ++ k ++ "&cmd=pms_image_proxy&img=" ++ queryEscape s.Thumb ∧
      containsStr (normalizeSession u k s).PosterURL (queryEscape s.Thumb)) := by
  constructor <;> intro h
  · rw [normalizeSession_posterURL]
    simp [h]
  · rw [normalizeSession_posterURL, if_pos h]
    refine ⟨rfl, u ++ "/api/v2?apikey=" ++ k ++ "&cmd=pms_image_proxy&img=", "", ?_⟩
    simp [String.append_assoc]

/-- Witness for C6: empty thumb gives the placeholder; thumb `a/b c` gives a
URL containing `a%2Fb+c`, the query-escaped form. -/
theorem poster_url_resolution_witness :
    (normalizeSession "http://t" "key" ⟨"u", "p", "", "T", "movie", "", "50", "", 0⟩).PosterURL =
      placeholderPosterURL ∧
    containsStr
      (normalizeSession "http://t" "key" ⟨"u", "p", "", "T", "movie", "a/b c", "50", "", 0⟩).PosterURL
      "a%2Fb+c" ∧
    queryEscape "a/b c" = "a%2Fb+c" := by
  have hq : queryEscape "a/b c" = "a%2Fb+c" := by decide
  refine ⟨(poster_url_resolution "http://t" "key" _).1 rfl, ?_, hq⟩
  have h := (poster_url_resolution "http://t" "key"
    ⟨"u", "p", "", "T", "movie", "a/b c", "50", "", 0⟩).2 (by decide)
  exact hq ▸ h.2

/-- Claim C7 counterexample: a session whose `progress_percent` is "150"
comes out with progress 150, outside [0,100]; the code copies the parsed
value without clamping. -/
theorem progress_clamp_cex :
    ¬ (0 ≤ (normalizeSession "http://t" "k"
          ⟨"u", "p", "", "T", "movie", "", "150", "", 0⟩).Progress ∧
       (normalizeSession "http://t" "k"
          ⟨"u", "p", "", "T", "movie", "", "150", "", 0⟩).Progress ≤ 100) := by
  decide

/-- Claim C7 amended: progress is the parsed `progress_percent` value passed
through unclamped (the decoded 0 is kept on parse failure), so it lies in
[0,100] exactly when the parsed value does. -/
theorem progress_passthrough (u k : String) (s : Session) :
    (atoi? s.ProgressPercent = none → (normalizeSession u k s).Progress = s.Progress) ∧
    (∀ v : Int, atoi? s.ProgressPercent = some v → (normalizeSession u k s).Progress = v) ∧
    (∀ v : Int, atoi? s.ProgressPercent = some v → 0 ≤ v → v ≤ 100 →
      0 ≤ (normalizeSession u k s).Progress ∧ (normalizeSession u k s).Progress ≤ 100) := by
  refine ⟨normalizeSession_progress_none u k s,
    fun v hv => normalizeSession_progress_some u k s v hv, ?_⟩
  intro v hv h0 h100
  rw [normalizeSession_progress_some u k s v hv]
  exact ⟨h0, h100⟩

/-- Witness for C7's amended claim: an in-range `progress_percent` of "42"
yields a progress inside [0,100]. -/
theorem progress_passthrough_witness :
    0 ≤ (normalizeSession "http://t" "k"
        ⟨"u", "p", "", "T", "movie", "", "42", "", 0⟩).Progress ∧
    (normalizeSession "http://t" "k"
        ⟨"u", "p", "", "T", "movie", "", "42", "", 0⟩).Progress ≤ 100 :=
  (progress_passthrough "http://t" "k" _).2.2 42 (by decide) (by decide) (by decide)

/-- Claim C8 counterexample: the primary handler (`main.go`) applies no scheme
normalization — for the schemeless base URL `example.com` the activity-fetch
URL it builds starts with neither `http://` nor `https://`. -/
theorem scheme_normalization_cex :
    apiURLBasic "example.com" "k" = "example.com/api/v2?apikey=k&cmd=get_activity" ∧
    strStartsWith (apiURLBasic "example.com" "k") "http://" = false ∧
    strStartsWith (apiURLBasic "example.com" "k") "https://" = false := by
  refine ⟨by decide, by decide, by decide⟩

/-- Claim C8 amended: in the image-proxy variant (`src/unnamed/part_003`) the
base URL is normalized by prepending `https://` when no `http://`/`https://`
prefix is present, so that variant's activity-fetch URL always begins with a
scheme; the `main.go` variant performs no such normalization. -/
theorem scheme_normalization_proxy_variant (u k : String) :
    strStartsWith (apiURLNormalized u k) "http://" = true ∨
    strStartsWith (apiURLNormalized u k) "https://" = true := by
  unfold apiURLNormalized apiURLBasic
  rcases normalizeBaseURL_scheme u with h | h
  · exact Or.inl (strStartsWith_append _ _ _ (strStartsWith_append _ _ _
      (strStartsWith_append _ _ _ h)))
  · exact Or.inr (strStartsWith_append _ _ _ (strStartsWith_append _ _ _
      (strStartsWith_append _ _ _ h)))

theorem decodeSession_encodeSession (s : Session) :
    decodeSession (encodeSession s) = some s := rfl

theorem decodeSessionList_map (l : List Session) :
    decodeSessionList (l.map encodeSession) = some l := by
  induction l with
  | nil => rfl
  | cons s rest ih => simp [decodeSessionList, decodeSession_encodeSession, ih]

/-- Claim C9: in JSON output mode, serializing an assembled page and decoding
the output back reproduces the page's field values, and the content type is
`application/json`. -/
theorem json_mode_roundtrip (pd : PageData) :
    (jsonModeOutput pd).1 = "application/json" ∧
    decodePage (jsonModeOutput pd).2 = some pd := by
  refine ⟨rfl, ?_⟩
  show decodePage (encodePage pd) = some pd
  simp [encodePage, decodePage, decodeSessionList_map]

/-- Claim C10: whenever the image proxy's upstream GET completes — whatever
the upstream status code — the proxy answers 200 with all upstream headers
copied and the body streamed unmodified; the upstream status is never
forwarded. -/
theorem image_proxy_forwards (t k img : String) (fetch : String → Option UpstreamResponse)
    (resp : UpstreamResponse) (ht : t ≠ "") (hk : k ≠ "") (himg : img ≠ "")
    (hf : fetch (imageProxyURL t k img) = some resp) :
    imageProxyHandler t k img fetch = ⟨200, resp.headers, resp.body⟩ := by
  unfold imageProxyHandler
  rw [if_neg ?hne, hf]
  case hne =>
    intro hor
    rcases hor with h | h | h
    · exact ht h
    · exact hk h
    · exact himg h

/-- Witness for C10: an upstream 404 still comes back as a 200 with the
upstream headers and body. -/
theorem image_proxy_forwards_witness :
    imageProxyHandler "t" "k" "i"
        (fun _ => some ⟨404, [("Content-Type", "image/jpeg")], "bytes"⟩) =
      ⟨200, [("Content-Type", "image/jpeg")], "bytes"⟩ :=
  image_proxy_forwards "t" "k" "i" _ ⟨404, [("Content-Type", "image/jpeg")], "bytes"⟩
    (by decide) (by decide) (by decide) rfl

end TautulliTrmnl
